import Mathlib

/-!
Verification of the process-supervisor core of the `local-first` repository
against its natural-language specification.

The Go sources are shallowly embedded: pure fragments become Lean functions,
the OS interactions of the supervisor (running `lsof`, `make`, spawning,
signalling) are modelled by an explicit environment record describing the
outcome of each external call, and the functions return, besides the Go
return value, the ordered list of externally visible effects (builds run,
processes spawned, signals sent, log calls made).
-/

namespace LocalFirst

/-! ### Go standard-library fragments used by the code -/

/-- Code points with Unicode property White_Space, the set trimmed by Go's
`strings.TrimSpace` (via `unicode.IsSpace`). -/
def goSpaceCodes : List Nat :=
  [9, 10, 11, 12, 13, 32, 0x85, 0xA0, 0x1680,
   0x2000, 0x2001, 0x2002, 0x2003, 0x2004, 0x2005, 0x2006, 0x2007,
   0x2008, 0x2009, 0x200A, 0x2028, 0x2029, 0x202F, 0x205F, 0x3000]

/-- Go `unicode.IsSpace`. -/
def goIsSpace (c : Char) : Bool := goSpaceCodes.contains c.toNat

/-- Go `strings.TrimSpace`: drop leading and trailing white space. -/
def goTrimSpace (s : String) : String :=
  String.mk (((s.toList.dropWhile goIsSpace).reverse.dropWhile goIsSpace).reverse)

/-- Interpret a list of characters as a base-10 number, failing on the empty
list or on any non-digit character (the digit part of Go `strconv.Atoi`). -/
def parseDigits : List Char → Option Nat
  | [] => none
  | cs => go cs 0
where
  go : List Char → Nat → Option Nat
    | [], acc => some acc
    | c :: rest, acc =>
      if c.isDigit then go rest (acc * 10 + (c.toNat - 48)) else none

/-- Go `strconv.Atoi` on a 64-bit platform: an optional sign followed by at
least one ASCII digit, the value fitting in `int64`; anything else is an
error (`none`). -/
def goAtoi (s : String) : Option Int :=
  match s.toList with
  | [] => none
  | c :: rest =>
    let signed : Bool × List Char :=
      if c = '-' then (true, rest)
      else if c = '+' then (false, rest)
      else (false, c :: rest)
    match parseDigits signed.2 with
    | none => none
    | some n =>
      let v : Int := if signed.1 then -(n : Int) else (n : Int)
      if v < -(2 ^ 63) ∨ (2 ^ 63 - 1 : Int) < v then none else some v

/-! ### Log Sink (`internal/cli/logs.go`, `Logger`) -/

/-- `LogLevel` from `logs.go`. -/
inductive LogLevel where
  | info
  | warning
  | error
  | debug
  | system
deriving DecidableEq, Repr

/-- `LogEntry` from `logs.go`: timestamp, severity, source tag, message.
Timestamps are modelled as naturals. -/
structure LogEntry where
  timestamp : Nat
  level : LogLevel
  source : String
  message : String
deriving DecidableEq, Repr

/-- The in-memory state of the `Logger` ring buffer (the file mirror is a
fire-and-forget side effect whose failures are swallowed; it does not affect
the buffer). -/
structure Logger where
  entries : List LogEntry
deriving DecidableEq, Repr

/-- The fixed in-memory capacity (`logs.go` keeps the last 500 entries). -/
def logCapacity : Nat := 500

/-- The entry built by `Logger.Log`: timestamp now, message trimmed. -/
def mkLogEntry (ts : Nat) (level : LogLevel) (source message : String) : LogEntry :=
  ⟨ts, level, source, goTrimSpace message⟩

/-- `Logger.Log`: append the entry, then drop the head if the buffer exceeds
500 entries (`if len(l.entries) > 500 { l.entries = l.entries[1:] }`). -/
def Logger.log (l : Logger) (ts : Nat) (level : LogLevel) (source message : String) : Logger :=
  let es := l.entries ++ [mkLogEntry ts level source message]
  ⟨if 500 < es.length then es.tail else es⟩

/-- Fold a list of `Log` calls (timestamp, level, source, message) into the
logger, oldest first. -/
def Logger.logAll (l : Logger) (calls : List (Nat × LogLevel × String × String)) : Logger :=
  calls.foldl (fun acc c => acc.log c.1 c.2.1 c.2.2.1 c.2.2.2) l

/-- `Logger.GetRecentLogs(limit)`: Go `int` limits are embedded as `Int`.
If `limit <= 0 || limit > len(entries)` the effective limit becomes
`len(entries)`; a zero effective limit returns the empty slice; otherwise
the suffix `entries[len-limit:]` is copied out. The effective limit is
substituted into each branch. -/
def Logger.getRecentLogs (l : Logger) (limit : Int) : List LogEntry :=
  if limit ≤ 0 ∨ (l.entries.length : Int) < limit then
    if l.entries.length = 0 then []
    else l.entries.drop (l.entries.length - l.entries.length)
  else
    if limit = 0 then []
    else l.entries.drop (l.entries.length - limit.toNat)

/-- The windowing step of `Logger.GetLogsBySource`: if `limit > 0` and more
entries matched, keep the last `limit` of them. -/
def sourceWindow (filtered : List LogEntry) (limit : Int) : List LogEntry :=
  if 0 < limit ∧ limit < (filtered.length : Int) then
    filtered.drop (filtered.length - limit.toNat)
  else filtered

/-- `Logger.GetLogsBySource(source, limit)`: keep the entries whose source
tag equals `source`, then window to the last `limit` of them. -/
def Logger.getLogsBySource (l : Logger) (source : String) (limit : Int) : List LogEntry :=
  sourceWindow (l.entries.filter (fun e => e.source == source)) limit

/-- The last `k` elements of a list (all of it when it is shorter). -/
def takeLast (k : Nat) (l : List α) : List α := l.drop (l.length - k)

theorem takeLast_eq_self {k : Nat} {l : List α} (h : l.length ≤ k) : takeLast k l = l := by
  unfold takeLast
  have : l.length - k = 0 := Nat.sub_eq_zero_of_le h
  rw [this, List.drop_zero]

theorem length_takeLast (k : Nat) (l : List α) :
    (takeLast k l).length = min k l.length := by
  unfold takeLast
  rw [List.length_drop]
  omega

theorem takeLast_suffix (k : Nat) (l : List α) : takeLast k l <:+ l :=
  List.drop_suffix _ _

theorem takeLast_of_suffix {k : Nat} {s l : List α} (hs : s <:+ l) (hk : k ≤ s.length) :
    takeLast k s = takeLast k l := by
  obtain ⟨t, rfl⟩ := hs
  unfold takeLast
  have hlen : (t ++ s).length - k = t.length + (s.length - k) := by
    rw [List.length_append]; omega
  rw [hlen, List.drop_append]

theorem takeLast_append_left (k : Nat) (a b : List α) :
    takeLast k (takeLast k a ++ b) = takeLast k (a ++ b) := by
  by_cases h : a.length ≤ k
  · rw [takeLast_eq_self h]
  · have hk : k ≤ (takeLast k a).length := by
      rw [length_takeLast]; omega
    have hsuf : takeLast k a ++ b <:+ a ++ b := by
      obtain ⟨t, ht⟩ := takeLast_suffix k a
      exact ⟨t, by rw [← List.append_assoc, ht]⟩
    have hk' : k ≤ (takeLast k a ++ b).length := by
      rw [List.length_append]; omega
    exact takeLast_of_suffix hsuf hk'

/-- One `Log` call keeps exactly the last 500 entries of the extended buffer. -/
theorem log_entries_eq (l : List LogEntry) (h : l.length ≤ 500)
    (ts : Nat) (level : LogLevel) (source message : String) :
    (Logger.log ⟨l⟩ ts level source message).entries
      = takeLast 500 (l ++ [mkLogEntry ts level source message]) := by
  unfold Logger.log
  simp only
  by_cases hlen : 500 < (l ++ [mkLogEntry ts level source message]).length
  · rw [if_pos hlen]
    have h500 : l.length = 500 := by
      rw [List.length_append, List.length_singleton] at hlen; omega
    unfold takeLast
    rw [List.length_append, List.length_singleton, h500]
    have h1 : 500 + 1 - 500 = 1 := by omega
    rw [h1, List.drop_one]
  · rw [if_neg hlen]
    exact (takeLast_eq_self (by omega)).symm

/-- The ring-buffer invariant: starting from a buffer of at most 500 entries,
any sequence of `Log` calls leaves exactly the last 500 entries of the full
appended stream, in stream order. -/
theorem logAll_entries_eq (xs : List (Nat × LogLevel × String × String)) :
    ∀ l : List LogEntry, l.length ≤ 500 →
    (Logger.logAll ⟨l⟩ xs).entries
      = takeLast 500 (l ++ xs.map (fun c => mkLogEntry c.1 c.2.1 c.2.2.1 c.2.2.2)) := by
  induction xs with
  | nil =>
    intro l h
    simp only [Logger.logAll, List.foldl_nil, List.map_nil, List.append_nil]
    exact (takeLast_eq_self h).symm
  | cons x xs ih =>
    intro l h
    have hstep : (Logger.log ⟨l⟩ x.1 x.2.1 x.2.2.1 x.2.2.2).entries
        = takeLast 500 (l ++ [mkLogEntry x.1 x.2.1 x.2.2.1 x.2.2.2]) :=
      log_entries_eq l h x.1 x.2.1 x.2.2.1 x.2.2.2
    have hlen : (Logger.log ⟨l⟩ x.1 x.2.1 x.2.2.1 x.2.2.2).entries.length ≤ 500 := by
      rw [hstep, length_takeLast]; omega
    calc (Logger.logAll ⟨l⟩ (x :: xs)).entries
        = (Logger.logAll ⟨(Logger.log ⟨l⟩ x.1 x.2.1 x.2.2.1 x.2.2.2).entries⟩ xs).entries := rfl
      _ = takeLast 500 ((Logger.log ⟨l⟩ x.1 x.2.1 x.2.2.1 x.2.2.2).entries
            ++ xs.map (fun c => mkLogEntry c.1 c.2.1 c.2.2.1 c.2.2.2)) := ih _ hlen
      _ = takeLast 500 ((l ++ [mkLogEntry x.1 x.2.1 x.2.2.1 x.2.2.2])
            ++ xs.map (fun c => mkLogEntry c.1 c.2.1 c.2.2.1 c.2.2.2)) := by
          rw [hstep, takeLast_append_left]
      _ = takeLast 500 (l ++ (x :: xs).map (fun c => mkLogEntry c.1 c.2.1 c.2.2.1 c.2.2.2)) := by
          rw [List.map_cons, List.append_assoc, List.singleton_append]

/-- `GetRecentLogs` with an effective positive limit is the suffix of the
buffer of that length. -/
theorem getRecentLogs_of_pos (lg : Logger) (limit : Int)
    (h1 : 0 < limit) (h2 : limit ≤ (lg.entries.length : Int)) :
    lg.getRecentLogs limit = takeLast limit.toNat lg.entries := by
  unfold Logger.getRecentLogs takeLast
  have hcond : ¬(limit ≤ 0 ∨ (lg.entries.length : Int) < limit) := by omega
  rw [if_neg hcond, if_neg (by omega : ¬limit = 0)]

/-- `GetRecentLogs` with a nonpositive or too-large limit returns the whole
buffer. -/
theorem getRecentLogs_all (lg : Logger) (limit : Int)
    (h : limit ≤ 0 ∨ (lg.entries.length : Int) < limit) :
    lg.getRecentLogs limit = lg.entries := by
  unfold Logger.getRecentLogs
  rw [if_pos h]
  by_cases hz : lg.entries.length = 0
  · rw [if_pos hz]
    exact (List.length_eq_zero.mp hz).symm
  · rw [if_neg hz, Nat.sub_self, List.drop_zero]

theorem getLast?_drop_of_lt : ∀ (l : List α) (k : Nat), k < l.length →
    (l.drop k).getLast? = l.getLast? := by
  intro l
  induction l with
  | nil => intro k hk; simp at hk
  | cons a l ih =>
    intro k hk
    cases k with
    | zero => rfl
    | succ k =>
      have hk' : k < l.length := by simpa using hk
      rw [List.drop_succ_cons, ih k hk']
      cases l with
      | nil => simp at hk'
      | cons b m => rw [List.getLast?_cons_cons]

/-- After a `Log` call, the newest entry sits at the end of the buffer. -/
theorem getLast?_log (lg : Logger) (ts : Nat) (level : LogLevel) (source message : String) :
    (lg.log ts level source message).entries.getLast?
      = some (mkLogEntry ts level source message) := by
  unfold Logger.log
  simp only
  by_cases hlen : 500 < (lg.entries ++ [mkLogEntry ts level source message]).length
  · rw [if_pos hlen, ← List.drop_one, getLast?_drop_of_lt _ 1 (by omega),
      List.getLast?_concat]
  · rw [if_neg hlen, List.getLast?_concat]

/-- The buffer is never empty right after a `Log` call. -/
theorem log_entries_ne_nil (lg : Logger) (ts : Nat) (level : LogLevel) (source message : String) :
    (lg.log ts level source message).entries ≠ [] := by
  intro hnil
  have := getLast?_log lg ts level source message
  rw [hnil] at this
  simp at this

/-! ### Port Inspector and Process Supervisor (`internal/cli/server.go`,
`internal/cli/commands.go`) -/

/-- `ServerStatus` from `server.go`. -/
inductive ServerStatus where
  | stopped
  | starting
  | running
  | stopping
deriving DecidableEq, Repr

/-- `ServerStatusMsg` from `server.go`: the message a supervisor command
delivers back to the dashboard. Errors are embedded as their text. -/
structure ServerStatusMsg where
  status : ServerStatus
  pid : Int
  error : Option String
deriving DecidableEq, Repr

/-- The supervisor's held handle (`ServerProcess` / the `currentServer`
global). `pid = none` models `cmd == nil || cmd.Process == nil`. -/
structure ServerProcess where
  pid : Option Int
deriving DecidableEq, Repr

/-- Outcomes of the external calls a supervisor operation can make, fixed up
front so every operation is a pure function of this record. -/
structure SysEnv where
  /-- `exec.Command("lsof", "-i", ":port").Run()` exited successfully. -/
  lsofCheckOk : Bool
  /-- `exec.Command("lsof", "-ti", ":port").Output()`: `some out` on
  success, `none` when the command itself errored. -/
  lsofListOutput : Option String
  /-- `make wasm`: `none` = success, `some e` = failure with error text `e`. -/
  buildWasmErr : Option String
  /-- `make server`. -/
  buildServerErr : Option String
  /-- `cmd.StdoutPipe()`. -/
  stdoutPipeErr : Option String
  /-- `cmd.StderrPipe()`. -/
  stderrPipeErr : Option String
  /-- `cmd.Start()`. -/
  startErr : Option String
  /-- `cmd.Process.Pid` for a successful spawn. -/
  spawnPid : Int
  /-- `syscall.Getpgid(pid)`: `some pgid` on success. -/
  getpgid : Int → Option Int
  /-- whether `syscall.Kill(pid, syscall.SIGTERM)` on a single pid errors. -/
  killTermFails : Int → Bool

/-- `isPortInUse` (`commands.go`): run `lsof -i :port` and report whether it
exited successfully. A lookup failure and an absent listener are
indistinguishable: both yield `false`, and no error escapes (the Go
signature returns only `bool`). -/
def isPortInUse (env : SysEnv) : Bool := env.lsofCheckOk

/-- `getProcessByPort` (`server.go`): run `lsof -ti :port`; on command
failure, blank output, or unparseable output return `0`, otherwise the
parsed pid. The Go signature returns only `int`: no error escapes. -/
def getProcessByPort (env : SysEnv) : Int :=
  match env.lsofListOutput with
  | none => 0
  | some output =>
    if goTrimSpace output = "" then 0
    else
      match goAtoi (goTrimSpace output) with
      | none => 0
      | some pid => pid

/-- `checkServerStatus` (`server.go`): `Running` with the port's discovered
pid when the port is in use, `Stopped` with pid 0 otherwise. -/
def checkServerStatus (env : SysEnv) : ServerStatusMsg :=
  if isPortInUse env then ⟨.running, getProcessByPort env, none⟩
  else ⟨.stopped, 0, none⟩

/-- The externally visible effects of one `startServer` invocation, plus the
message it returns. -/
structure StartEffects where
  /-- `make` targets invoked, in order. -/
  buildsInvoked : List String
  /-- whether `cmd.Start()` was reached and succeeded (a child was spawned). -/
  spawned : Bool
  /-- `Logger.Log` calls made, in order (level, source, message). -/
  logCalls : List (LogLevel × String × String)
  /-- the value assigned to the `currentServer` global, if any. -/
  currentAssigned : Option ServerProcess
  /-- the `ServerStatusMsg` returned to the dashboard. -/
  msg : ServerStatusMsg
deriving DecidableEq, Repr

/-- `startServer` (`server.go`), line by line: port check first (occupied →
report `Running` with the discovered pid, nothing else happens), then the
two builds, the two pipes, and the spawn, each failure aborting with a
distinct error and status `Stopped`; on success the child's pid is
reported `Running` and the handle is stored. -/
def startServer (port : Int) (env : SysEnv) : StartEffects :=
  if isPortInUse env then
    { buildsInvoked := [], spawned := false, logCalls := [],
      currentAssigned := none,
      msg := ⟨.running, getProcessByPort env, none⟩ }
  else
    match env.buildWasmErr with
    | some e =>
      { buildsInvoked := ["wasm"], spawned := false,
        logCalls := [(.system, "cli", "Building WASM..."),
                     (.error, "cli", "Failed to build WASM: " ++ e)],
        currentAssigned := none,
        msg := ⟨.stopped, 0, some ("failed to build WASM: " ++ e)⟩ }
    | none =>
      match env.buildServerErr with
      | some e =>
        { buildsInvoked := ["wasm", "server"], spawned := false,
          logCalls := [(.system, "cli", "Building WASM..."),
                       (.system, "cli", "WASM build completed"),
                       (.system, "cli", "Building server..."),
                       (.error, "cli", "Failed to build server: " ++ e)],
          currentAssigned := none,
          msg := ⟨.stopped, 0, some ("failed to build server: " ++ e)⟩ }
      | none =>
        match env.stdoutPipeErr with
        | some e =>
          { buildsInvoked := ["wasm", "server"], spawned := false,
            logCalls := startPrefixLogs port ++
                        [(.error, "cli", "Failed to create stdout pipe: " ++ e)],
            currentAssigned := none,
            msg := ⟨.stopped, 0, some ("failed to create stdout pipe: " ++ e)⟩ }
        | none =>
          match env.stderrPipeErr with
          | some e =>
            { buildsInvoked := ["wasm", "server"], spawned := false,
              logCalls := startPrefixLogs port ++
                          [(.error, "cli", "Failed to create stderr pipe: " ++ e)],
              currentAssigned := none,
              msg := ⟨.stopped, 0, some ("failed to create stderr pipe: " ++ e)⟩ }
          | none =>
            match env.startErr with
            | some e =>
              { buildsInvoked := ["wasm", "server"], spawned := false,
                logCalls := startPrefixLogs port ++
                            [(.error, "cli", "Failed to start server: " ++ e)],
                currentAssigned := none,
                msg := ⟨.stopped, 0, some ("failed to start server: " ++ e)⟩ }
            | none =>
              { buildsInvoked := ["wasm", "server"], spawned := true,
                logCalls := startPrefixLogs port ++
                            [(.system, "cli",
                               "Server started with PID " ++ toString env.spawnPid),
                             (.system, "cli", "Server startup completed")],
                currentAssigned := some ⟨some env.spawnPid⟩,
                msg := ⟨.running, env.spawnPid, none⟩ }
where
  /-- the log lines of a start attempt that got past both builds. -/
  startPrefixLogs (port : Int) : List (LogLevel × String × String) :=
    [(.system, "cli", "Building WASM..."),
     (.system, "cli", "WASM build completed"),
     (.system, "cli", "Building server..."),
     (.system, "cli", "Server build completed"),
     (.system, "cli", "Starting server on port " ++ toString port)]

/-- A Unix signal as used by `stopServer`. -/
inductive Sig where
  | term
  | kill
deriving DecidableEq, Repr

/-- The externally visible effects of one `stopServer` invocation. A signal
target below zero is a process group (`syscall.Kill(-pgid, ...)`). -/
structure StopEffects where
  /-- `syscall.Kill` calls made, in order (target, signal). -/
  signals : List (Int × Sig)
  /-- `Logger.Log` calls made synchronously, in order. -/
  logCalls : List (LogLevel × String × String)
  /-- whether the fire-and-forget `cmd.Wait()` goroutine was spawned (its
  own "Server process has exited" log happens asynchronously, after this
  operation has already returned). -/
  asyncWaitStarted : Bool
  /-- the value of the `currentServer` global after the call. -/
  currentAfter : Option ServerProcess
  /-- the `ServerStatusMsg` returned to the dashboard. -/
  msg : ServerStatusMsg
deriving DecidableEq, Repr

/-- `stopServer` (`server.go`): with a held handle, cancel its context, look
up the process group and SIGTERM it (skipping the signal when `Getpgid`
errors), spawn a fire-and-forget wait, and clear the handle; with no held
handle, look up the port's owner and SIGTERM it directly, escalating to
SIGKILL when SIGTERM errors. Always returns `Stopped` with pid 0. -/
def stopServer (port : Int) (env : SysEnv) (cur : Option ServerProcess) : StopEffects :=
  match cur with
  | some sp =>
    match sp.pid with
    | some pid =>
      { signals :=
          match env.getpgid pid with
          | some pgid => [(-pgid, .term)]
          | none => [],
        logCalls := [(.system, "cli", "Stopping server..."),
                     (.system, "cli", "Terminating server process " ++ toString pid),
                     (.system, "cli", "Server stopped")],
        asyncWaitStarted := true,
        currentAfter := none,
        msg := ⟨.stopped, 0, none⟩ }
    | none =>
      { signals := [],
        logCalls := [(.system, "cli", "Stopping server..."),
                     (.system, "cli", "Server stopped")],
        asyncWaitStarted := false,
        currentAfter := none,
        msg := ⟨.stopped, 0, none⟩ }
  | none =>
    if 0 < getProcessByPort env then
      { signals :=
          if env.killTermFails (getProcessByPort env) then
            [(getProcessByPort env, .term), (getProcessByPort env, .kill)]
          else [(getProcessByPort env, .term)],
        logCalls :=
          [(.system, "cli", "No active server process, checking port..."),
           (.system, "cli", "Found process " ++ toString (getProcessByPort env)
              ++ " on port " ++ toString port ++ ", terminating")]
          ++ (if env.killTermFails (getProcessByPort env) then
                [(.warning, "cli", "SIGTERM failed, using SIGKILL")]
              else [])
          ++ [(.system, "cli", "Server stopped")],
        asyncWaitStarted := false,
        currentAfter := none,
        msg := ⟨.stopped, 0, none⟩ }
    else
      { signals := [],
        logCalls := [(.system, "cli", "No active server process, checking port..."),
                     (.system, "cli", "No process found on port"),
                     (.system, "cli", "Server stopped")],
        asyncWaitStarted := false,
        currentAfter := none,
        msg := ⟨.stopped, 0, none⟩ }

/-- One event in the chronological trace of a `restartServer` invocation.
`delivered` marks a message actually returned to the dashboard's event
loop (a `tea.Cmd` returns exactly one message). -/
inductive RestartEvent where
  | logCall (c : LogLevel × String × String)
  | stopPerformed (eff : StopEffects)
  | cooldownMs (ms : Nat)
  | startPerformed (eff : StartEffects)
  | delivered (msg : ServerStatusMsg)
deriving DecidableEq, Repr

/-- `restartServer` (`server.go`): log, run the stop (whose own returned
message is discarded — `m.stopServer()()` is evaluated for effect only),
log, sleep two seconds, log, run the start, and return the start's
message; `env1`/`env2` are the external-call outcomes seen by the stop
and the start phases respectively. -/
def restartServer (port : Int) (env1 env2 : SysEnv) (cur : Option ServerProcess) :
    List RestartEvent :=
  [.logCall (.system, "cli", "Restarting server..."),
   .stopPerformed (stopServer port env1 cur),
   .logCall (.system, "cli", "Waiting for cleanup..."),
   .cooldownMs 2000,
   .logCall (.system, "cli", "Starting server again..."),
   .startPerformed (startServer port env2),
   .delivered (startServer port env2).msg]

/-- The messages a trace delivers to the dashboard, in order. -/
def deliveredMsgs (tr : List RestartEvent) : List ServerStatusMsg :=
  tr.filterMap fun e =>
    match e with
    | .delivered m => some m
    | _ => none

/-! ### Dashboard Controller (`internal/cli/server.go`, `DashboardModel.Update`) -/

/-- `RequestLog` from `server.go`. -/
structure RequestLog where
  timestamp : Nat
  method : String
  path : String
  status : Int
  durationMs : Int
deriving DecidableEq, Repr

/-- The keyboard commands of the dashboard's key map. -/
inductive KeyCmd where
  | start
  | stop
  | restart
  | refresh
  | nextTab
  | prevTab
  | clearError
  | quit
deriving DecidableEq, Repr

/-- The messages `DashboardModel.Update` handles. -/
inductive Msg where
  | windowSize (w h : Int)
  | key (k : KeyCmd)
  | tick
  | serverStatus (s : ServerStatusMsg)
  | requestLogs (logs : List RequestLog)
  | logsUpdated (logs : List LogEntry)
deriving DecidableEq, Repr

/-- The mutable fields of `DashboardModel` (`server.go`). `startTime = 0`
models the zero `time.Time`. -/
structure DashboardModel where
  status : ServerStatus
  port : Int
  pid : Int
  uptime : Nat
  requests : List RequestLog
  logs : List LogEntry
  selectedTab : Int
  width : Int
  height : Int
  startTime : Nat
  lastError : String
  showError : Bool
deriving DecidableEq, Repr

/-- `NewDashboardModel`: status `Stopped`, the configured port, the current
time as `startTime`, everything else zero. -/
def initModel (port : Int) (now : Nat) : DashboardModel :=
  { status := .stopped, port := port, pid := 0, uptime := 0,
    requests := [], logs := [], selectedTab := 0, width := 0, height := 0,
    startTime := now, lastError := "", showError := false }

/-- `updateUptime` (`server.go`). -/
def DashboardModel.updateUptime (now : Nat) (m : DashboardModel) : DashboardModel :=
  if m.status = .running ∧ m.startTime ≠ 0 then { m with uptime := now - m.startTime }
  else m

/-- The state part of `DashboardModel.Update` (`server.go`): `now` is the
value `time.Now()` would return while the message is processed. The
commands a branch dispatches (start/stop/restart/status checks, the next
tick) do not change the model, so the function returns the model alone;
key dispatch guards (`Start` only when `Stopped`, `Stop`/`Restart` only
when `Running`) leave the state untouched either way. -/
def DashboardModel.update (now : Nat) (m : DashboardModel) (msg : Msg) : DashboardModel :=
  match msg with
  | .windowSize w h => { m with width := w, height := h }
  | .key k =>
    match k with
    | .quit => m
    | .start => m
    | .stop => m
    | .restart => m
    | .refresh => m
    | .nextTab => { m with selectedTab := (m.selectedTab + 1).tmod 3 }
    | .prevTab => { m with selectedTab := (m.selectedTab - 1 + 3).tmod 3 }
    | .clearError => { m with showError := false, lastError := "" }
  | .tick => m.updateUptime now
  | .serverStatus s =>
    let m1 : DashboardModel := { m with status := s.status, pid := s.pid }
    let m2 : DashboardModel :=
      match s.error with
      | some e => { m1 with lastError := e, showError := true }
      | none => { m1 with showError := false }
    let m3 : DashboardModel :=
      if s.status = .running ∧ m2.startTime = 0 then { m2 with startTime := now } else m2
    if s.status = .stopped then { m3 with startTime := 0, uptime := 0 } else m3
  | .requestLogs logs => { m with requests := logs }
  | .logsUpdated logs => { m with logs := logs }

/-! ### Concrete environments used as test inputs -/

/-- A port occupied by an external process with pid 4242. -/
def envOccupied : SysEnv :=
  { lsofCheckOk := true, lsofListOutput := some "4242", buildWasmErr := none,
    buildServerErr := none, stdoutPipeErr := none, stderrPipeErr := none,
    startErr := none, spawnPid := 0, getpgid := fun _ => none,
    killTermFails := fun _ => false }

/-- A free port where both builds, both pipes, and the spawn succeed; the
child gets pid 77. -/
def envStartOk : SysEnv :=
  { lsofCheckOk := false, lsofListOutput := none, buildWasmErr := none,
    buildServerErr := none, stdoutPipeErr := none, stderrPipeErr := none,
    startErr := none, spawnPid := 77, getpgid := fun p => some p,
    killTermFails := fun _ => false }

/-- A free port where the first build step (`make wasm`) fails. -/
def envBuildFail : SysEnv :=
  { lsofCheckOk := false, lsofListOutput := none,
    buildWasmErr := some "exit status 2", buildServerErr := none,
    stdoutPipeErr := none, stderrPipeErr := none, startErr := none,
    spawnPid := 0, getpgid := fun _ => none, killTermFails := fun _ => false }

/-- An environment where `Getpgid` succeeds, reporting each pid as its own
process-group id. -/
def envHeld : SysEnv :=
  { lsofCheckOk := false, lsofListOutput := none, buildWasmErr := none,
    buildServerErr := none, stdoutPipeErr := none, stderrPipeErr := none,
    startErr := none, spawnPid := 0, getpgid := fun p => some p,
    killTermFails := fun _ => false }

/-- An environment where `Getpgid` fails for every pid. -/
def envPgidFail : SysEnv :=
  { lsofCheckOk := false, lsofListOutput := none, buildWasmErr := none,
    buildServerErr := none, stdoutPipeErr := none, stderrPipeErr := none,
    startErr := none, spawnPid := 0, getpgid := fun _ => none,
    killTermFails := fun _ => false }

/-- A port whose out-of-band owner has pid 91 and accepts SIGTERM. -/
def envFallback : SysEnv :=
  { lsofCheckOk := true, lsofListOutput := some "91", buildWasmErr := none,
    buildServerErr := none, stdoutPipeErr := none, stderrPipeErr := none,
    startErr := none, spawnPid := 0, getpgid := fun _ => none,
    killTermFails := fun _ => false }

/-- A port whose out-of-band owner has pid 91 but rejects SIGTERM. -/
def envFallbackEsc : SysEnv :=
  { lsofCheckOk := true, lsofListOutput := some "91", buildWasmErr := none,
    buildServerErr := none, stdoutPipeErr := none, stderrPipeErr := none,
    startErr := none, spawnPid := 0, getpgid := fun _ => none,
    killTermFails := fun _ => true }

/-- A port with two listeners: `lsof -ti` succeeds but prints two pids, one
per line. -/
def envMultiPid : SysEnv :=
  { lsofCheckOk := true, lsofListOutput := some "123\n456\n",
    buildWasmErr := none, buildServerErr := none, stdoutPipeErr := none,
    stderrPipeErr := none, startErr := none, spawnPid := 0,
    getpgid := fun _ => none, killTermFails := fun _ => false }

/-- An environment where the `lsof` lookups themselves fail. -/
def envLookupFail : SysEnv :=
  { lsofCheckOk := false, lsofListOutput := none, buildWasmErr := none,
    buildServerErr := none, stdoutPipeErr := none, stderrPipeErr := none,
    startErr := none, spawnPid := 0, getpgid := fun _ => none,
    killTermFails := fun _ => false }

/-- A free port where `lsof -ti` succeeds with blank output. -/
def envNoListener : SysEnv :=
  { lsofCheckOk := false, lsofListOutput := some "\n", buildWasmErr := none,
    buildServerErr := none, stdoutPipeErr := none, stderrPipeErr := none,
    startErr := none, spawnPid := 0, getpgid := fun _ => none,
    killTermFails := fun _ => false }

/-! ### The claims -/

/-- C1: while the target port is occupied, `startServer` spawns no child and
invokes no build; it returns `Running` with the pid the port inspector
reports for the existing owner. Consequently any sequence of Start calls
all issued while the port is occupied spawns no child at all — in
particular at most one. -/
theorem start_idempotent_when_port_occupied (port : Int) (env : SysEnv)
    (h : isPortInUse env = true) :
    (startServer port env).spawned = false
    ∧ (startServer port env).buildsInvoked = []
    ∧ (startServer port env).msg = ⟨.running, getProcessByPort env, none⟩
    ∧ ∀ envs : List SysEnv, (∀ e ∈ envs, isPortInUse e = true) →
        (envs.filter fun e => (startServer port e).spawned).length = 0 := by
  refine ⟨?_, ?_, ?_, ?_⟩
  · simp [startServer, h]
  · simp [startServer, h]
  · simp [startServer, h]
  · intro envs hall
    rw [List.length_eq_zero, List.filter_eq_nil_iff]
    intro e he
    simp [startServer, hall e he]

/-- C1 witness: a port occupied by pid 4242, and a two-call Start sequence. -/
theorem start_idempotent_when_port_occupied_witness :
    (startServer 8080 envOccupied).spawned = false
    ∧ (startServer 8080 envOccupied).msg = ⟨.running, 4242, none⟩
    ∧ ([envOccupied, envOccupied].filter
         fun e => (startServer 8080 e).spawned).length = 0 := by
  have h := start_idempotent_when_port_occupied 8080 envOccupied rfl
  refine ⟨h.1, ?_, ?_⟩
  · rw [h.2.2.1]
    decide
  · refine h.2.2.2 [envOccupied, envOccupied] ?_
    intro e he
    rcases List.mem_cons.mp he with rfl | he'
    · rfl
    · rcases List.mem_singleton.mp he' with rfl
      rfl

/-- C8: when no process listens on the port, or the OS socket-listing
lookup itself fails, `isPortInUse` returns `false` and `getProcessByPort`
returns 0; neither function can surface an error (their Go signatures
return a bare `bool` and `int`, so the embedding returns plain values). -/
theorem port_inspector_failure_semantics (env : SysEnv)
    (h : env.lsofCheckOk = false
         ∧ (env.lsofListOutput = none
            ∨ ∃ s, env.lsofListOutput = some s ∧ goTrimSpace s = "")) :
    isPortInUse env = false ∧ getProcessByPort env = 0 := by
  refine ⟨h.1, ?_⟩
  rcases h.2 with hnone | ⟨s, hs, htrim⟩
  · simp [getProcessByPort, hnone]
  · simp [getProcessByPort, hs, htrim]

/-- C8 witness: a failing lookup and a successful-but-blank lookup. -/
theorem port_inspector_failure_semantics_witness :
    (isPortInUse envLookupFail = false ∧ getProcessByPort envLookupFail = 0)
    ∧ (isPortInUse envNoListener = false ∧ getProcessByPort envNoListener = 0) := by
  refine ⟨port_inspector_failure_semantics envLookupFail ⟨rfl, Or.inl rfl⟩,
          port_inspector_failure_semantics envNoListener ⟨rfl, Or.inr ⟨"\n", rfl, ?_⟩⟩⟩
  decide

/-- C10: when the port is occupied but the pid listing is not a single
parseable integer (for example two pids, one per line), `getProcessByPort`
returns 0 while `isPortInUse` is `true`, so `checkServerStatus` reports
`Running` with pid 0. -/
theorem multiPid_running_pid_zero (env : SysEnv) (s : String)
    (hocc : isPortInUse env = true)
    (hout : env.lsofListOutput = some s)
    (hne : ¬goTrimSpace s = "")
    (hparse : goAtoi (goTrimSpace s) = none) :
    getProcessByPort env = 0 ∧ checkServerStatus env = ⟨.running, 0, none⟩ := by
  have hpid : getProcessByPort env = 0 := by
    simp [getProcessByPort, hout, hne, hparse]
  refine ⟨hpid, ?_⟩
  simp [checkServerStatus, hocc, hpid]

/-- C10 witness: `lsof -ti` printing "123\n456\n". -/
theorem multiPid_running_pid_zero_witness :
    getProcessByPort envMultiPid = 0
    ∧ checkServerStatus envMultiPid = ⟨.running, 0, none⟩ :=
  multiPid_running_pid_zero envMultiPid "123\n456\n" rfl rfl
    (by decide) (by decide)

/-- C2 counterexample: a held instance with pid 42 whose `Getpgid` lookup
fails. `stopServer` then sends no signal at all — in particular no
graceful signal to the process group — yet still reports `Stopped` with
pid 0, refuting the unconditional "sends a graceful termination signal to
the entire process group". -/
theorem stop_group_signal_counterexample :
    (stopServer 8080 envPgidFail (some ⟨some 42⟩)).signals = []
    ∧ (stopServer 8080 envPgidFail (some ⟨some 42⟩)).msg = ⟨.stopped, 0, none⟩
    ∧ (stopServer 8080 envPgidFail (some ⟨some 42⟩)).currentAfter = none := by
  refine ⟨rfl, rfl, rfl⟩

/-- C2 (amended): with a held instance whose process-group lookup succeeds,
`stopServer` SIGTERMs the whole group and spawns the fire-and-forget
wait; if the lookup fails, no signal is sent. In every held case the
handle is cleared. With no held instance it SIGTERMs the pid owning the
port directly, escalating to SIGKILL when SIGTERM errors, and does
nothing when no owner is found. In every case the returned message is
`Stopped` with pid 0. -/
theorem stop_semantics_amended (port : Int) (env : SysEnv) (sp : ServerProcess)
    (pid pgid : Int) :
    (sp.pid = some pid → env.getpgid pid = some pgid →
       (stopServer port env (some sp)).signals = [(-pgid, .term)]
       ∧ (stopServer port env (some sp)).asyncWaitStarted = true)
    ∧ (sp.pid = some pid → env.getpgid pid = none →
       (stopServer port env (some sp)).signals = [])
    ∧ (∀ cur, (stopServer port env cur).msg = ⟨.stopped, 0, none⟩)
    ∧ (stopServer port env (some sp)).currentAfter = none
    ∧ (0 < getProcessByPort env → env.killTermFails (getProcessByPort env) = false →
       (stopServer port env none).signals = [(getProcessByPort env, .term)])
    ∧ (0 < getProcessByPort env → env.killTermFails (getProcessByPort env) = true →
       (stopServer port env none).signals
         = [(getProcessByPort env, .term), (getProcessByPort env, .kill)])
    ∧ (getProcessByPort env ≤ 0 → (stopServer port env none).signals = []) := by
  refine ⟨?_, ?_, ?_, ?_, ?_, ?_, ?_⟩
  · intro hpid hpgid
    simp [stopServer, hpid, hpgid]
  · intro hpid hpgid
    simp [stopServer, hpid, hpgid]
  · intro cur
    match cur with
    | none =>
      by_cases h : 0 < getProcessByPort env <;> simp [stopServer, h]
    | some sp' =>
      match hsp : sp'.pid with
      | none => simp [stopServer, hsp]
      | some pid' => simp [stopServer, hsp]
  · match hsp : sp.pid with
    | none => simp [stopServer, hsp]
    | some pid' => simp [stopServer, hsp]
  · intro hpos hterm
    simp [stopServer, hpos, hterm]
  · intro hpos hterm
    simp [stopServer, hpos, hterm]
  · intro hle
    simp [stopServer, Int.not_lt.mpr hle]

/-- C2 (amended) witness: pid 42 with a working group lookup, a failing
group lookup, direct termination of pid 91 with and without SIGKILL
escalation, and an empty port. -/
theorem stop_semantics_amended_witness :
    ((stopServer 8080 envHeld (some ⟨some 42⟩)).signals = [(-42, .term)]
       ∧ (stopServer 8080 envHeld (some ⟨some 42⟩)).asyncWaitStarted = true)
    ∧ (stopServer 8080 envPgidFail (some ⟨some 42⟩)).signals = []
    ∧ (stopServer 8080 envHeld (some ⟨some 42⟩)).msg = ⟨.stopped, 0, none⟩
    ∧ (stopServer 8080 envHeld (some ⟨some 42⟩)).currentAfter = none
    ∧ (stopServer 8080 envFallback none).signals = [(91, .term)]
    ∧ (stopServer 8080 envFallbackEsc none).signals = [(91, .term), (91, .kill)]
    ∧ (stopServer 8080 envLookupFail none).signals = [] := by
  refine ⟨(stop_semantics_amended 8080 envHeld ⟨some 42⟩ 42 42).1 rfl rfl,
          (stop_semantics_amended 8080 envPgidFail ⟨some 42⟩ 42 0).2.1 rfl rfl,
          (stop_semantics_amended 8080 envHeld ⟨some 42⟩ 42 42).2.2.1 (some ⟨some 42⟩),
          (stop_semantics_amended 8080 envHeld ⟨some 42⟩ 42 42).2.2.2.1,
          ?_, ?_, ?_⟩
  · have h := (stop_semantics_amended 8080 envFallback ⟨none⟩ 0 0).2.2.2.2.1
      (by decide) (by decide)
    rw [h]
    decide
  · have h := (stop_semantics_amended 8080 envFallbackEsc ⟨none⟩ 0 0).2.2.2.2.2.1
      (by decide) (by decide)
    rw [h]
    decide
  · exact (stop_semantics_amended 8080 envLookupFail ⟨none⟩ 0 0).2.2.2.2.2.2
      (by decide)

/-- The entries produced by a list of `Log` calls, in call order. -/
def logStream (xs : List (Nat × LogLevel × String × String)) : List LogEntry :=
  xs.map fun c => mkLogEntry c.1 c.2.1 c.2.2.1 c.2.2.2

/-- C3: after more than 500 `Log` calls on a fresh logger, `RecentEntries(0)`
is exactly the last 500 entries of the call stream in order, and
`RecentEntries(10)` exactly the last 10; in general, for `0 < limit ≤`
buffer size the result is exactly the most recent `limit` buffered
entries in order, and for `limit ≤ 0` or `limit >` buffer size it is the
whole buffer. -/
theorem recentEntries_spec (xs : List (Nat × LogLevel × String × String))
    (hN : 500 < xs.length) :
    (Logger.logAll ⟨[]⟩ xs).getRecentLogs 0 = takeLast 500 (logStream xs)
    ∧ (Logger.logAll ⟨[]⟩ xs).getRecentLogs 10 = takeLast 10 (logStream xs)
    ∧ (∀ (lg : Logger) (limit : Int), 0 < limit → limit ≤ (lg.entries.length : Int) →
        lg.getRecentLogs limit = takeLast limit.toNat lg.entries)
    ∧ (∀ (lg : Logger) (limit : Int), limit ≤ 0 ∨ (lg.entries.length : Int) < limit →
        lg.getRecentLogs limit = lg.entries) := by
  have hstream : (logStream xs).length = xs.length := by
    simp [logStream]
  have hentries : (Logger.logAll ⟨[]⟩ xs).entries = takeLast 500 (logStream xs) := by
    have := logAll_entries_eq xs [] (by simp)
    simpa [logStream] using this
  have hlen : (Logger.logAll ⟨[]⟩ xs).entries.length = 500 := by
    rw [hentries, length_takeLast]
    omega
  refine ⟨?_, ?_, ?_, ?_⟩
  · rw [getRecentLogs_all _ 0 (Or.inl le_rfl)]
    exact hentries
  · rw [getRecentLogs_of_pos _ 10 (by omega) (by rw [hlen]; omega)]
    rw [hentries]
    have hsub : takeLast 500 (logStream xs) <:+ logStream xs := takeLast_suffix _ _
    have h10 : (10 : Int).toNat = 10 := rfl
    rw [h10]
    exact takeLast_of_suffix hsub (by rw [length_takeLast]; omega)
  · exact fun lg limit h1 h2 => getRecentLogs_of_pos lg limit h1 h2
  · exact fun lg limit h => getRecentLogs_all lg limit h

/-- C3 witness: 501 identical `Log` calls, plus effective-limit checks on a
singleton buffer. -/
theorem recentEntries_spec_witness :
    ((Logger.logAll ⟨[]⟩ (List.replicate 501 (0, LogLevel.info, "s", "m"))).getRecentLogs 0
       = takeLast 500 (logStream (List.replicate 501 (0, LogLevel.info, "s", "m"))))
    ∧ ((Logger.logAll ⟨[]⟩ (List.replicate 501 (0, LogLevel.info, "s", "m"))).getRecentLogs 10
       = takeLast 10 (logStream (List.replicate 501 (0, LogLevel.info, "s", "m"))))
    ∧ (Logger.getRecentLogs ⟨[⟨0, .info, "s", "m"⟩]⟩ 1
       = takeLast 1 [⟨0, .info, "s", "m"⟩])
    ∧ (Logger.getRecentLogs ⟨[⟨0, .info, "s", "m"⟩]⟩ (-3) = [⟨0, .info, "s", "m"⟩]) := by
  have h501 : 500 < (List.replicate 501 (0, LogLevel.info, "s", "m")).length := by
    rw [List.length_replicate]
    omega
  refine ⟨(recentEntries_spec _ h501).1,
          (recentEntries_spec _ h501).2.1,
          (recentEntries_spec (List.replicate 501 (0, LogLevel.info, "s", "m"))
             h501).2.2.1 ⟨[⟨0, .info, "s", "m"⟩]⟩ 1 (by decide) (by decide),
          (recentEntries_spec (List.replicate 501 (0, LogLevel.info, "s", "m"))
             h501).2.2.2 ⟨[⟨0, .info, "s", "m"⟩]⟩ (-3) (Or.inl (by decide))⟩

/-- C7: an entry appended by `Log` comes back as the most recent entry of
`RecentEntries` (for every limit) with the same severity, the same
source, and the whitespace-trimmed message. -/
theorem log_recent_roundTrip (lg : Logger) (ts : Nat) (level : LogLevel)
    (source message : String) (limit : Int) :
    ((lg.log ts level source message).getRecentLogs limit).getLast?
      = some ⟨ts, level, source, goTrimSpace message⟩ := by
  have hlast : (lg.log ts level source message).entries.getLast?
      = some (mkLogEntry ts level source message) := getLast?_log lg ts level source message
  have hne : (lg.log ts level source message).entries ≠ [] :=
    log_entries_ne_nil lg ts level source message
  have hpos : 0 < (lg.log ts level source message).entries.length :=
    List.length_pos.mpr hne
  by_cases hc : limit ≤ 0 ∨ ((lg.log ts level source message).entries.length : Int) < limit
  · rw [getRecentLogs_all _ limit hc, hlast]
    rfl
  · push_neg at hc
    rw [getRecentLogs_of_pos _ limit hc.1 hc.2]
    unfold takeLast
    rw [getLast?_drop_of_lt _ _ (by omega), hlast]
    rfl

/-- C9: every entry returned by `EntriesBySource(source, limit)` carries
exactly the requested source tag, and when `limit > 0` the result is the
suffix of at most `limit` most recent matching entries. -/
theorem entriesBySource_spec (lg : Logger) (source : String) (limit : Int) :
    (∀ en ∈ lg.getLogsBySource source limit, en.source = source)
    ∧ (0 < limit →
        ((lg.getLogsBySource source limit).length : Int) ≤ limit
        ∧ lg.getLogsBySource source limit
            = takeLast limit.toNat (lg.entries.filter fun e => e.source == source)) := by
  constructor
  · intro en hen
    have hmem : en ∈ lg.entries.filter fun e => e.source == source := by
      unfold Logger.getLogsBySource sourceWindow at hen
      by_cases hc : 0 < limit ∧ limit < ((lg.entries.filter fun e => e.source == source).length : Int)
      · rw [if_pos hc] at hen
        exact List.mem_of_mem_drop hen
      · rwa [if_neg hc] at hen
    have := List.of_mem_filter hmem
    simpa using this
  · intro hpos
    unfold Logger.getLogsBySource sourceWindow takeLast
    by_cases hc : limit < ((lg.entries.filter fun e => e.source == source).length : Int)
    · rw [if_pos ⟨hpos, hc⟩]
      constructor
      · rw [List.length_drop]
        omega
      · rfl
    · rw [if_neg (by tauto)]
      constructor
      · omega
      · rw [Nat.sub_eq_zero_of_le (by omega), List.drop_zero]

/-- C9 witness: a two-source buffer filtered to source "a" with limit 1. -/
theorem entriesBySource_spec_witness :
    LogEntry.source ⟨0, .info, "a", "x"⟩ = "a"
    ∧ ((Logger.getLogsBySource ⟨[⟨0, .info, "a", "x"⟩, ⟨1, .info, "b", "y"⟩,
          ⟨2, .info, "a", "z"⟩]⟩ "a" 1).length : Int) ≤ 1
    ∧ Logger.getLogsBySource ⟨[⟨0, .info, "a", "x"⟩, ⟨1, .info, "b", "y"⟩,
          ⟨2, .info, "a", "z"⟩]⟩ "a" 1
        = takeLast (1 : Int).toNat
            ((List.filter (fun e => e.source == "a")
               [⟨0, .info, "a", "x"⟩, ⟨1, .info, "b", "y"⟩, ⟨2, .info, "a", "z"⟩])) := by
  refine ⟨?_, ?_, ?_⟩
  · exact (entriesBySource_spec ⟨[⟨0, .info, "a", "x"⟩]⟩ "a" 1).1
      ⟨0, .info, "a", "x"⟩ (by decide)
  · exact ((entriesBySource_spec _ "a" 1).2 (by decide)).1
  · exact ((entriesBySource_spec _ "a" 1).2 (by decide)).2

/-- C4 counterexample: Start on a free port whose first build step fails
with "exit status 2". The attempt reports `Stopped` with the build error
and spawns nothing, but the entry recording the failure that reaches the
log sink has severity `Error`, not `System`: no system-severity entry
records the failure. -/
theorem start_buildFailure_severity_counterexample :
    (startServer 8080 envBuildFail).msg
      = ⟨.stopped, 0, some "failed to build WASM: exit status 2"⟩
    ∧ (startServer 8080 envBuildFail).spawned = false
    ∧ (Logger.logAll ⟨[]⟩
        ((startServer 8080 envBuildFail).logCalls.map fun c => (0, c))).entries
      = [⟨0, .system, "cli", "Building WASM..."⟩,
         ⟨0, .error, "cli", "Failed to build WASM: exit status 2"⟩]
    ∧ ¬∃ en ∈ (Logger.logAll ⟨[]⟩
        ((startServer 8080 envBuildFail).logCalls.map fun c => (0, c))).entries,
        en.level = .system ∧ en.message = "Failed to build WASM: exit status 2" := by
  refine ⟨by decide, by decide, by decide, ?_⟩
  intro ⟨en, hen, hlvl, hmsg⟩
  have : en = ⟨0, .system, "cli", "Building WASM..."⟩
      ∨ en = ⟨0, .error, "cli", "Failed to build WASM: exit status 2"⟩ := by
    have hlist : (Logger.logAll ⟨[]⟩
        ((startServer 8080 envBuildFail).logCalls.map fun c => (0, c))).entries
      = [⟨0, .system, "cli", "Building WASM..."⟩,
         ⟨0, .error, "cli", "Failed to build WASM: exit status 2"⟩] := by decide
    rw [hlist] at hen
    simpa using hen
  rcases this with rfl | rfl
  · exact absurd hmsg (by decide)
  · exact absurd hlvl (by decide)

/-- C4 (amended): Start on a free port with a failing first build step
reports `Stopped` with an error identifying the build failure, spawns no
child, and logs exactly the build announcement at `System` severity and
the failure record at `Error` severity; folding those calls into any log
sink leaves an `Error`-severity entry recording the failure. -/
theorem start_buildFailure_amended (port : Int) (env : SysEnv) (e : String)
    (hfree : isPortInUse env = false) (hfail : env.buildWasmErr = some e) :
    (startServer port env).msg.status = .stopped
    ∧ (startServer port env).msg.error = some ("failed to build WASM: " ++ e)
    ∧ (startServer port env).spawned = false
    ∧ (startServer port env).logCalls
        = [(.system, "cli", "Building WASM..."),
           (.error, "cli", "Failed to build WASM: " ++ e)]
    ∧ ∀ (lg : Logger) (ts : Nat),
        ∃ en ∈ (Logger.logAll lg
            ((startServer port env).logCalls.map fun c => (ts, c))).entries,
          en.level = .error ∧ en.source = "cli"
          ∧ en.message = goTrimSpace ("Failed to build WASM: " ++ e) := by
  have heffects : startServer port env
      = { buildsInvoked := ["wasm"], spawned := false,
          logCalls := [(.system, "cli", "Building WASM..."),
                       (.error, "cli", "Failed to build WASM: " ++ e)],
          currentAssigned := none,
          msg := ⟨.stopped, 0, some ("failed to build WASM: " ++ e)⟩ } := by
    unfold startServer
    rw [if_neg (by rw [hfree]; exact Bool.false_ne_true), hfail]
  refine ⟨by rw [heffects], by rw [heffects], by rw [heffects], by rw [heffects], ?_⟩
  intro lg ts
  rw [heffects]
  have hlast := getLast?_log
    (lg.log ts .system "cli" "Building WASM...") ts .error "cli"
    ("Failed to build WASM: " ++ e)
  refine ⟨mkLogEntry ts .error "cli" ("Failed to build WASM: " ++ e),
          List.mem_of_getLast?_eq_some hlast, rfl, rfl, rfl⟩

/-- C4 (amended) witness: the concrete failing-build environment. -/
theorem start_buildFailure_amended_witness :
    (startServer 8080 envBuildFail).msg.status = .stopped
    ∧ (startServer 8080 envBuildFail).msg.error
        = some "failed to build WASM: exit status 2"
    ∧ (startServer 8080 envBuildFail).spawned = false
    ∧ ∃ en ∈ (Logger.logAll ⟨[]⟩
          ((startServer 8080 envBuildFail).logCalls.map fun c => (0, c))).entries,
        en.level = .error ∧ en.source = "cli"
        ∧ en.message = goTrimSpace "Failed to build WASM: exit status 2" := by
  have h := start_buildFailure_amended 8080 envBuildFail "exit status 2" rfl rfl
  exact ⟨h.1, h.2.1, h.2.2.1, h.2.2.2.2 ⟨[]⟩ 0⟩

/-- C5 counterexample: after an error is displayed, a `ServerStatusMsg`
carrying no error — the completion every periodic status check delivers —
sets `showError` back to `false` without any clear-error command and
without a newer error, so the error is no longer displayed (its text
stays behind in `lastError`). -/
theorem error_display_counterexample :
    ((initModel 8080 100).update 101
        (.serverStatus ⟨.stopped, 0, some "failed to build WASM: exit status 1"⟩)).showError
      = true
    ∧ ((initModel 8080 100).update 101
        (.serverStatus ⟨.stopped, 0, some "failed to build WASM: exit status 1"⟩)).lastError
      = "failed to build WASM: exit status 1"
    ∧ (((initModel 8080 100).update 101
          (.serverStatus ⟨.stopped, 0, some "failed to build WASM: exit status 1"⟩)).update 102
        (.serverStatus ⟨.running, 55, none⟩)).showError = false
    ∧ (((initModel 8080 100).update 101
          (.serverStatus ⟨.stopped, 0, some "failed to build WASM: exit status 1"⟩)).update 102
        (.serverStatus ⟨.running, 55, none⟩)).lastError
      = "failed to build WASM: exit status 1" := by
  refine ⟨by decide, by decide, by decide, by decide⟩

/-- C5 (amended): a displayed error stays displayed with its text intact
under every message except the clear-error key (which clears both flags)
and a `ServerStatusMsg`: a status message with a new error supersedes the
text and keeps the display on, while a status message without an error —
including every routine status-check completion — turns the display off
(retaining the text in `lastError`). -/
theorem error_display_amended (now : Nat) (m : DashboardModel) (msg : Msg)
    (hshow : m.showError = true) :
    ((m.update now msg).showError = false →
        msg = .key .clearError ∨ ∃ st pid, msg = .serverStatus ⟨st, pid, none⟩)
    ∧ (∀ st pid e, msg = .serverStatus ⟨st, pid, some e⟩ →
        (m.update now msg).showError = true ∧ (m.update now msg).lastError = e)
    ∧ ((∀ k, msg ≠ .key k) → (∀ s, msg ≠ .serverStatus s) →
        (m.update now msg).showError = true
        ∧ (m.update now msg).lastError = m.lastError)
    ∧ (∀ k, ¬k = .clearError → msg = .key k →
        (m.update now msg).showError = true
        ∧ (m.update now msg).lastError = m.lastError) := by
  refine ⟨?_, ?_, ?_, ?_⟩
  · intro hoff
    match msg with
    | .windowSize w h => simp [DashboardModel.update, hshow] at hoff
    | .key k =>
      match k with
      | .quit | .start | .stop | .restart | .refresh | .nextTab | .prevTab =>
        simp [DashboardModel.update, hshow] at hoff
      | .clearError => exact Or.inl rfl
    | .tick =>
      unfold DashboardModel.update DashboardModel.updateUptime at hoff
      by_cases hc : m.status = .running ∧ m.startTime ≠ 0 <;>
        simp [hc, hshow] at hoff
    | .serverStatus s =>
      match s with
      | ⟨st, pid, none⟩ => exact Or.inr ⟨st, pid, rfl⟩
      | ⟨st, pid, some e⟩ =>
        exfalso
        revert hoff
        unfold DashboardModel.update
        by_cases h1 : st = ServerStatus.running ∧ m.startTime = 0 <;>
          by_cases h2 : st = ServerStatus.stopped <;>
            simp [h1, h2]
    | .requestLogs logs => simp [DashboardModel.update, hshow] at hoff
    | .logsUpdated logs => simp [DashboardModel.update, hshow] at hoff
  · intro st pid e hmsg
    subst hmsg
    unfold DashboardModel.update
    by_cases h1 : st = ServerStatus.running ∧ m.startTime = 0 <;>
      by_cases h2 : st = ServerStatus.stopped <;>
        simp [h1, h2]
  · intro hkey hstatus
    match msg with
    | .windowSize w h => simp [DashboardModel.update, hshow]
    | .key k => exact absurd rfl (hkey k)
    | .tick =>
      unfold DashboardModel.update DashboardModel.updateUptime
      by_cases hc : m.status = .running ∧ m.startTime ≠ 0 <;> simp [hc, hshow]
    | .serverStatus s => exact absurd rfl (hstatus s)
    | .requestLogs logs => simp [DashboardModel.update, hshow]
    | .logsUpdated logs => simp [DashboardModel.update, hshow]
  · intro k hk hmsg
    subst hmsg
    match k with
    | .quit | .start | .stop | .restart | .refresh | .nextTab | .prevTab =>
      simp [DashboardModel.update, hshow]
    | .clearError => exact absurd rfl hk

/-- C5 (amended) witness: a model showing the error "boom" under a tick, a
superseding error, and a non-clear key. -/
theorem error_display_amended_witness :
    (({ initModel 8080 0 with showError := true, lastError := "boom" }.update 5
        Msg.tick).showError = true
      ∧ ({ initModel 8080 0 with showError := true, lastError := "boom" }.update 5
        Msg.tick).lastError = "boom")
    ∧ (({ initModel 8080 0 with showError := true, lastError := "boom" }.update 5
        (.serverStatus ⟨.stopped, 0, some "worse"⟩)).showError = true
      ∧ ({ initModel 8080 0 with showError := true, lastError := "boom" }.update 5
        (.serverStatus ⟨.stopped, 0, some "worse"⟩)).lastError = "worse")
    ∧ (({ initModel 8080 0 with showError := true, lastError := "boom" }.update 5
        (.key .nextTab)).showError = true
      ∧ ({ initModel 8080 0 with showError := true, lastError := "boom" }.update 5
        (.key .nextTab)).lastError = "boom") := by
  refine ⟨(error_display_amended 5 _ Msg.tick rfl).2.2.1
            (fun k h => Msg.noConfusion h) (fun s h => Msg.noConfusion h),
          (error_display_amended 5 _ (.serverStatus ⟨.stopped, 0, some "worse"⟩)
            rfl).2.1 .stopped 0 "worse" rfl,
          (error_display_amended 5 _ (.key .nextTab) rfl).2.2.2 .nextTab
            (fun h => KeyCmd.noConfusion h) rfl⟩

/-- C6 counterexample: a restart issued while the supervised child (pid 42)
is running and the subsequent start succeeds with new pid 77. The only
message the restart delivers to the controller is the final `Running`
one: no `Stopped` transition is delivered at all — before the cooldown or
ever — because `restartServer` discards the stop phase's message. -/
theorem restart_stopped_delivery_counterexample :
    deliveredMsgs (restartServer 8080 envHeld envStartOk (some ⟨some 42⟩))
      = [⟨.running, 77, none⟩]
    ∧ ∀ msg ∈ deliveredMsgs (restartServer 8080 envHeld envStartOk (some ⟨some 42⟩)),
        ¬msg.status = .stopped := by
  refine ⟨by decide, ?_⟩
  intro msg hmem
  have hlist : deliveredMsgs (restartServer 8080 envHeld envStartOk (some ⟨some 42⟩))
      = [⟨.running, 77, none⟩] := by decide
  rw [hlist] at hmem
  rcases List.mem_singleton.mp hmem with rfl
  decide

/-- C6 (amended): `restartServer` performs the stop phase's side effects,
then the fixed two-second cooldown, then the start phase, in that order,
but delivers exactly one message to the controller — the start phase's
result; the stop phase's `Stopped` message is computed and discarded.
When the start succeeds on a free port the delivered message is `Running`
with the newly spawned pid, and when the port is already occupied again
it is `Running` with the externally discovered pid. -/
theorem restart_sequence_amended (port : Int) (env1 env2 : SysEnv)
    (cur : Option ServerProcess) :
    restartServer port env1 env2 cur
      = [.logCall (.system, "cli", "Restarting server..."),
         .stopPerformed (stopServer port env1 cur),
         .logCall (.system, "cli", "Waiting for cleanup..."),
         .cooldownMs 2000,
         .logCall (.system, "cli", "Starting server again..."),
         .startPerformed (startServer port env2),
         .delivered (startServer port env2).msg]
    ∧ deliveredMsgs (restartServer port env1 env2 cur)
        = [(startServer port env2).msg]
    ∧ (isPortInUse env2 = false → env2.buildWasmErr = none →
       env2.buildServerErr = none → env2.stdoutPipeErr = none →
       env2.stderrPipeErr = none → env2.startErr = none →
        (startServer port env2).msg = ⟨.running, env2.spawnPid, none⟩)
    ∧ (isPortInUse env2 = true →
        (startServer port env2).msg = ⟨.running, getProcessByPort env2, none⟩) := by
  refine ⟨rfl, rfl, ?_, ?_⟩
  · intro hfree h1 h2 h3 h4 h5
    unfold startServer
    rw [if_neg (by rw [hfree]; exact Bool.false_ne_true), h1, h2, h3, h4, h5]
  · intro hocc
    unfold startServer
    rw [if_pos hocc]

/-- C6 (amended) witness: the held-child restart with a successful start,
and a restart whose start phase finds the port occupied again. -/
theorem restart_sequence_amended_witness :
    deliveredMsgs (restartServer 8080 envHeld envStartOk (some ⟨some 42⟩))
      = [(startServer 8080 envStartOk).msg]
    ∧ (startServer 8080 envStartOk).msg = ⟨.running, 77, none⟩
    ∧ (startServer 8080 envOccupied).msg = ⟨.running, getProcessByPort envOccupied, none⟩ := by
  refine ⟨(restart_sequence_amended 8080 envHeld envStartOk (some ⟨some 42⟩)).2.1,
          ?_,
          (restart_sequence_amended 8080 envHeld envOccupied none).2.2.2 rfl⟩
  have h := (restart_sequence_amended 8080 envHeld envStartOk
    (some ⟨some 42⟩)).2.2.1 rfl rfl rfl rfl rfl rfl
  rw [h]
  decide

end LocalFirst
